import Mathlib

/-!
Verification development for the quiz-please-dashboard repository.

The repository is a read-only analytics dashboard: a query layer that
composes parameterized SQL (src/db.py), and a reshape layer
(0_Main.py, pages/1_General_Stats.py, pages/2_Team_Analysis.py) that
pivots, sorts and tallies query results.  This file gives a shallow
embedding of those parts and proves (or refutes) the frozen claims
about them.
-/

namespace QuizPlease

/-! ## SQL text assembly (src/db.py)

Each query function in `db.py` builds a `filters` list by appending one
constant predicate string per non-empty optional argument, then joins
them with `" AND "` into a `WHERE` clause.  Filter values never enter
the SQL text; they go into a separate `params` dict.  We embed the
filter-list builder of each function and the resulting query string
(whitespace flattened to single spaces).
-/

/-- The shared optional-filter pattern of `db.py`: `if game_names:`
appends `"<pre>game_name IN :game_names"`, then likewise for
`categories` and `venues`.  `pre` is the column prefix (`""` or
`"g."`), matching each function's SQL aliases. -/
def optFilters (pre : String) (game_names categories venues : List String) : List String :=
  (if game_names ≠ [] then [pre ++ "game_name IN :game_names"] else []) ++
  (if categories ≠ [] then [pre ++ "category IN :categories"] else []) ++
  (if venues ≠ [] then [pre ++ "venue IN :venues"] else [])

/-- `where_clause = "WHERE " + " AND ".join(filters) if filters else ""`. -/
def whereIfAny (filters : List String) : String :=
  if filters ≠ [] then "WHERE " ++ String.intercalate " AND " filters else ""

/-- `where_clause` for the functions whose filter list is always
non-empty (a base predicate is pushed first). -/
def whereAlways (filters : List String) : String :=
  "WHERE " ++ String.intercalate " AND " filters

/-- Filter list of `get_games_list` (db.py lines 104-118). -/
def get_games_list_filters (game_names categories venues : List String) : List String :=
  optFilters "" game_names categories venues

/-- Filter list of `get_summary_stats` (db.py lines 43-60). -/
def get_summary_stats_filters (game_names categories venues : List String) : List String :=
  optFilters "" game_names categories venues

/-- Filter list of `get_overall_top_teams` (db.py lines 130-147). -/
def get_overall_top_teams_filters (game_names categories venues : List String) : List String :=
  optFilters "g." game_names categories venues

/-- Filter list of `get_top_n_finishes` (db.py lines 176-193): the rank
threshold predicate is always present, optional filters follow. -/
def get_top_n_finishes_filters (game_names categories venues : List String) : List String :=
  "tgp.rank <= :top_n" :: optFilters "g." game_names categories venues

/-- Filter list of `get_avg_round_scores_by_team` (db.py lines 210-227). -/
def get_avg_round_scores_by_team_filters (game_names categories venues : List String) : List String :=
  optFilters "g." game_names categories venues

/-- Filter list of `get_team_game_history` (db.py lines 245-262): the
team predicate is always present, optional filters follow. -/
def get_team_game_history_filters (game_names categories venues : List String) : List String :=
  "tgp.team_id = :team_id" :: optFilters "g." game_names categories venues

/-- SQL text of `get_games_list` (whitespace flattened). -/
def get_games_list_query (game_names categories venues : List String) : String :=
  "SELECT id, game_date, game_name, game_number, category, venue FROM quizplease.games " ++
  whereIfAny (get_games_list_filters game_names categories venues) ++
  " ORDER BY game_date DESC;"

/-- SQL text of `get_summary_stats` (whitespace flattened). -/
def get_summary_stats_query (game_names categories venues : List String) : String :=
  "WITH filtered_games AS (SELECT id, game_date FROM quizplease.games " ++
  whereIfAny (get_summary_stats_filters game_names categories venues) ++
  "), game_counts AS (SELECT game_id, COUNT(*) as team_count FROM quizplease.team_game_participations WHERE game_id IN (SELECT id FROM filtered_games) GROUP BY game_id) SELECT (SELECT COUNT(*) FROM filtered_games) as total_games, (SELECT AVG(team_count) FROM game_counts) as avg_teams, (SELECT MAX(game_date) FROM filtered_games) as latest_game;"

/-- `limit_clause` of `get_overall_top_teams` (db.py lines 150-154):
present iff `limit is not None`; the value itself is bound, not
interpolated. -/
def limitClause {α : Type} (limit : Option α) : String :=
  match limit with
  | some _ => "LIMIT :limit_val"
  | none => ""

/-- SQL text of `get_overall_top_teams` (whitespace flattened). -/
def get_overall_top_teams_query {α : Type} (limit : Option α)
    (game_names categories venues : List String) : String :=
  "SELECT t.id, t.name, COUNT(tgp.game_id) as games_played, SUM(tgp.total_score) as total_points, ROUND(AVG(tgp.total_score), 1) as avg_points FROM quizplease.teams t JOIN quizplease.team_game_participations tgp ON t.id = tgp.team_id JOIN quizplease.games g ON tgp.game_id = g.id " ++
  whereIfAny (get_overall_top_teams_filters game_names categories venues) ++
  " GROUP BY t.id, t.name ORDER BY total_points DESC " ++
  limitClause limit ++ ";"

/-- SQL text of `get_top_n_finishes` (whitespace flattened). -/
def get_top_n_finishes_query (game_names categories venues : List String) : String :=
  "SELECT t.name, COUNT(*) as finish_count FROM quizplease.teams t JOIN quizplease.team_game_participations tgp ON t.id = tgp.team_id JOIN quizplease.games g ON tgp.game_id = g.id " ++
  whereAlways (get_top_n_finishes_filters game_names categories venues) ++
  " GROUP BY t.name ORDER BY finish_count DESC;"

/-- SQL text of `get_avg_round_scores_by_team` (whitespace flattened). -/
def get_avg_round_scores_by_team_query (game_names categories venues : List String) : String :=
  "SELECT t.name, rs.round_name, AVG(rs.score) as avg_score FROM quizplease.teams t JOIN quizplease.team_game_participations tgp ON t.id = tgp.team_id JOIN quizplease.games g ON tgp.game_id = g.id JOIN quizplease.round_scores rs ON tgp.id = rs.participation_id " ++
  whereIfAny (get_avg_round_scores_by_team_filters game_names categories venues) ++
  " GROUP BY t.name, rs.round_name;"

/-- SQL text of `get_team_game_history` (whitespace flattened). -/
def get_team_game_history_query (game_names categories venues : List String) : String :=
  "SELECT g.id as game_id, g.game_date, g.game_name, tgp.rank, tgp.total_score, g.venue FROM quizplease.team_game_participations tgp JOIN quizplease.games g ON tgp.game_id = g.id " ++
  whereAlways (get_team_game_history_filters game_names categories venues) ++
  " ORDER BY g.game_date DESC;"

/-- A value bound as a query parameter (the `params` dict): either a
tuple of filter strings or an integer. -/
inductive BindValue : Type
  | strs (vs : List String)
  | int (n : Int)
deriving DecidableEq

/-- Python `int()` on a numeric value: truncation toward zero. -/
def pyInt (q : ℚ) : Int :=
  if 0 ≤ q then ⌊q⌋ else ⌈q⌉

/-- The `params` dict of `get_overall_top_teams`: one entry per
non-empty filter, then `params["limit_val"] = int(limit)` when a limit
is given (db.py lines 134-154). -/
def get_overall_top_teams_params (limit : Option ℚ)
    (game_names categories venues : List String) : List (String × BindValue) :=
  (if game_names ≠ [] then [("game_names", BindValue.strs game_names)] else []) ++
  (if categories ≠ [] then [("categories", BindValue.strs categories)] else []) ++
  (if venues ≠ [] then [("venues", BindValue.strs venues)] else []) ++
  (match limit with
   | some l => [("limit_val", BindValue.int (pyInt l))]
   | none => [])

/-- The `params` dict of `get_summary_stats` (db.py lines 47-58). -/
def get_summary_stats_params (game_names categories venues : List String) :
    List (String × BindValue) :=
  (if game_names ≠ [] then [("game_names", BindValue.strs game_names)] else []) ++
  (if categories ≠ [] then [("categories", BindValue.strs categories)] else []) ++
  (if venues ≠ [] then [("venues", BindValue.strs venues)] else [])

/-! ## Relational store model (schema of section 6 of the spec)

Executable semantics for the SQL queries the claims reason about.
Dates are modelled as naturals (only their ordering matters). -/

structure Game where
  id : Nat
  game_date : Nat
  game_name : String
  category : String
  venue : String
deriving DecidableEq

structure Team where
  id : Nat
  name : String
deriving DecidableEq

structure Participation where
  game_id : Nat
  team_id : Nat
  rank : Nat
  total_score : Int
deriving DecidableEq

structure DB where
  games : List Game
  teams : List Team
  parts : List Participation
deriving DecidableEq

/-- Semantics of the composed optional `WHERE` predicates: a game row
passes when every non-empty filter set contains the row's value; an
empty filter set constrains nothing. -/
def matchesFilters (g : Game) (game_names categories venues : List String) : Bool :=
  (game_names.isEmpty || game_names.contains g.game_name) &&
  (categories.isEmpty || categories.contains g.category) &&
  (venues.isEmpty || venues.contains g.venue)

/-- One output row of `get_team_game_history`:
`(game_id, game_date, game_name, rank, total_score, venue)`. -/
structure HistRow where
  game_id : Nat
  game_date : Nat
  game_name : String
  rank : Nat
  total_score : Int
  venue : String
deriving DecidableEq

def mkHistRow (p : Participation) (g : Game) : HistRow :=
  ⟨g.id, g.game_date, g.game_name, p.rank, p.total_score, g.venue⟩

/-- `ORDER BY g.game_date DESC`: descending-date comparison on rows. -/
def dateDesc (a b : HistRow) : Prop := b.game_date ≤ a.game_date

instance : DecidableRel dateDesc := fun a b => Nat.decLe b.game_date a.game_date

/-- Semantics of `get_team_game_history` (db.py lines 245-277): join
participations with games on `game_id`, keep the given team's rows that
pass the optional filters, order by game date descending. -/
def get_team_game_history (db : DB) (team_id : Nat)
    (game_names categories venues : List String) : List HistRow :=
  List.insertionSort dateDesc <|
    (db.parts.flatMap fun p =>
      (db.games.filter fun g => p.game_id == g.id).map fun g => (p, g)).filterMap
      fun pg =>
        if pg.1.team_id == team_id && matchesFilters pg.2 game_names categories venues then
          some (mkHistRow pg.1 pg.2)
        else none

/-- The session filter selection returned by `render_sidebar_filters`
(utils.py lines 26-72). -/
structure Filters where
  game_names : List String
  categories : List String
  venues : List String
deriving DecidableEq

/-- The Team Analysis page's call (2_Team_Analysis.py line 35):
`get_team_game_history(selected_team_id, game_names=filters['game_names'],
categories=filters['categories'])` — the venue selection is not passed,
so the `venues` parameter stays at its default `None`. -/
def teamAnalysisHistory (db : DB) (team_id : Nat) (filters : Filters) : List HistRow :=
  get_team_game_history db team_id filters.game_names filters.categories []

/-- The joined row multiset of `get_top_n_finishes` (db.py lines
176-206) before grouping: each participation with `rank <= top_n`
contributes one row per matching team and per matching, filter-passing
game; the grouped query keys on the team name. -/
def topNJoinNames (db : DB) (top_n : Nat)
    (game_names categories venues : List String) : List String :=
  db.parts.flatMap fun p =>
    if p.rank ≤ top_n then
      (db.teams.filter fun t => t.id == p.team_id).flatMap fun t =>
        (db.games.filter fun g =>
          p.game_id == g.id && matchesFilters g game_names categories venues).map
          fun _ => t.name
    else []

/-- `ORDER BY finish_count DESC` on `(name, finish_count)` rows. -/
def countDesc (a b : String × Nat) : Prop := b.2 ≤ a.2

instance : DecidableRel countDesc := fun a b => Nat.decLe b.2 a.2

/-- Semantics of `get_top_n_finishes`: group the joined rows by team
name, count each group, order by count descending. -/
def get_top_n_finishes (db : DB) (top_n : Nat)
    (game_names categories venues : List String) : List (String × Nat) :=
  List.insertionSort countDesc
    ((topNJoinNames db top_n game_names categories venues).dedup.map fun n =>
      (n, (topNJoinNames db top_n game_names categories venues).count n))

/-! ## run_query error handling (db.py lines 21-33)

`run_query` asks the memoized `get_connection` for an engine; when the
connection attempt failed that is `None` and `run_query` returns an
empty DataFrame without touching the store.  Otherwise it runs
`pd.read_sql` inside a `try`, and on an exception reports
`st.error(f"Query failed: {e}")` and returns an empty DataFrame.  We
model a DataFrame as a list of rows, the engine as an opaque handle,
and `pd.read_sql` as a fallible oracle; the result records the
returned table, the messages sent to the `st.error` channel, and how
many executions were attempted. -/

structure Engine where
  handle : Nat
deriving DecidableEq

def DataFrame : Type := List (List String)

def DataFrame.empty : DataFrame := []

structure RunOutcome where
  result : DataFrame
  errors : List String
  executions : Nat

/-- `run_query` (db.py lines 21-33). -/
def run_query (engine : Option Engine) (read_sql : Engine → Except String DataFrame) :
    RunOutcome :=
  match engine with
  | some e =>
    match read_sql e with
    | Except.ok df => ⟨df, [], 1⟩
    | Except.error msg => ⟨DataFrame.empty, ["Query failed: " ++ msg], 1⟩
  | none => ⟨DataFrame.empty, [], 0⟩

/-! ## Leaderboard pivot (0_Main.py lines 79-97)

`get_full_game_results` (db.py lines 304-325) delivers one row per
(participation, round score) pair, the round columns coming from a
`LEFT JOIN`, so a team with no round rows appears once with null
`round_name` and `score`.  The page then runs

`results_df.pivot_table(index=['rank','name','total_score'],
columns='round_name', values='score').reset_index()` and
`pivot_df.sort_values('rank', inplace=True)`.

`pivot_table` groups by the index and column keys with pandas'
defaults: rows whose `round_name` is null are dropped from the
grouping, the surviving group keys are sorted ascending
(lexicographically on the key tuple), column labels are sorted
ascending, and each cell is the mean of the matching scores (absent
cells stay NaN).  We embed exactly that. -/

/-- One row of the `get_full_game_results` table.  `round_name` and
`score` are `none` exactly when the left join found no round rows. -/
structure ResultRow where
  name : String
  rank : Nat
  total_score : Int
  round_name : Option String
  score : Option ℚ
deriving DecidableEq

/-- The rows `pivot_table` actually groups: those with a non-null
column key `round_name`. -/
def pivotValid (l : List ResultRow) : List ResultRow :=
  l.filter fun r => r.round_name.isSome

/-- The grouping key `(rank, name, total_score)`. -/
def rowKey (r : ResultRow) : Nat × String × Int :=
  (r.rank, r.name, r.total_score)

/-- Computable strict lexicographic comparison of character lists
(Python compares strings by code points, shortest-prefix first). -/
def lexLT : List Char → List Char → Bool
  | _, [] => false
  | [], _ :: _ => true
  | a :: as, b :: bs => if a < b then true else if b < a then false else lexLT as bs

/-- Strict string comparison by code points, as Python and pandas
compare string keys. -/
def strLT (a b : String) : Bool := lexLT a.toList b.toList

/-- Ascending lexicographic order on grouping keys, as pandas sorts
grouped keys. -/
def keyLE (a b : Nat × String × Int) : Prop :=
  a.1 < b.1 ∨ (a.1 = b.1 ∧ (strLT a.2.1 b.2.1 = true ∨ (a.2.1 = b.2.1 ∧ a.2.2 ≤ b.2.2)))

instance : DecidableRel keyLE := fun a b =>
  inferInstanceAs (Decidable (a.1 < b.1 ∨ (a.1 = b.1 ∧
    (strLT a.2.1 b.2.1 = true ∨ (a.2.1 = b.2.1 ∧ a.2.2 ≤ b.2.2)))))

/-- Ascending order on column labels (`a ≤ b` as `¬ b < a`), as pandas
sorts column labels. -/
def colLE (a b : String) : Prop := strLT b a = false

instance : DecidableRel colLE := fun a b =>
  inferInstanceAs (Decidable (strLT b a = false))

/-- Ascending rank on pivoted rows `(rank, name, total_score, cells)`,
the key of the page's `sort_values('rank')`. -/
def rankLE (a b : Nat × String × Int × List (Option ℚ)) : Prop := a.1 ≤ b.1

instance : DecidableRel rankLE := fun a b => Nat.decLe a.1 b.1

/-- Mean of a list of scores; `none` on the empty list (pandas: an
all-absent cell stays NaN rather than becoming 0). -/
def listMean (xs : List ℚ) : Option ℚ :=
  if xs = [] then none else some (xs.sum / xs.length)

/-- The sorted distinct round columns of the pivot. -/
def pivotCols (l : List ResultRow) : List String :=
  List.insertionSort colLE ((pivotValid l).filterMap (fun r => r.round_name)).dedup

/-- The sorted distinct grouping keys of the pivot. -/
def pivotKeys (l : List ResultRow) : List (Nat × String × Int) :=
  List.insertionSort keyLE ((pivotValid l).map rowKey).dedup

/-- One pivot cell: the mean of the scores of the rows with the given
key and round column. -/
def pivotCell (l : List ResultRow) (k : Nat × String × Int) (c : String) : Option ℚ :=
  listMean (((pivotValid l).filter fun r =>
    rowKey r == k && r.round_name == some c).filterMap fun r => r.score)

/-- The leaderboard pivot of 0_Main.py lines 81-88: the column list and
the rows `(rank, name, total_score, cells)`, grouped and key-sorted by
`pivot_table` and finally run through `sort_values('rank')`. -/
def pivot_df (l : List ResultRow) :
    List String × List (Nat × String × Int × List (Option ℚ)) :=
  let cols := pivotCols l
  (cols,
   List.insertionSort rankLE
     ((pivotKeys l).map fun k => (k.1, k.2.1, k.2.2, cols.map (pivotCell l k))))

/-! ## Natural round ordering
(1_General_Stats.py lines 110-114 and 2_Team_Analysis.py lines 111-114)

`sorted(rounds, key=lambda x: int(''.join(filter(str.isdigit, x)))
                               if any(c.isdigit() for c in x) else 999)`.
Python's `sorted` is stable. -/

/-- `any(c.isdigit() for c in x)`. -/
def hasDigit (s : String) : Bool := s.toList.any Char.isDigit

/-- `int(''.join(filter(str.isdigit, x)))`: the number read from the
digit characters of the name, in order. -/
def digitsValue (s : String) : Nat :=
  (s.toList.filter Char.isDigit).foldl (fun n c => 10 * n + (c.toNat - 48)) 0

/-- The sort key: embedded digits as a number, or the sentinel 999 for
names with no digit. -/
def roundKey (s : String) : Nat :=
  if hasDigit s then digitsValue s else 999

/-- Comparison by an arbitrary natural-valued key (Python's `sorted`
with `key=...`, which sorts stably by the key values). -/
def byKey {α : Type} (key : α → Nat) (a b : α) : Prop := key a ≤ key b

instance {α : Type} (key : α → Nat) : DecidableRel (byKey key) :=
  fun a b => Nat.decLe (key a) (key b)

/-- The natural round sort used by both pages. -/
def sortRounds (l : List String) : List String :=
  List.insertionSort (byKey roundKey) l

/-! ## Head-to-head tally (2_Team_Analysis.py lines 298-331) -/

/-- `common_game_ids = set(team1 ids) & set(team2 ids)`, as the list of
distinct ids of the first history that also occur in the second (the
tally below is insensitive to the iteration order of the Python set). -/
def commonGameIds (df1 df2 : List HistRow) : List Nat :=
  ((df1.map fun r => r.game_id).dedup).filter fun gid =>
    (df2.map fun r => r.game_id).contains gid

/-- One step of the tally loop (lines 310-321): look up each team's
first row for the game (`.iloc[0]`) and credit a win — to team 1 when
its rank is strictly lower, otherwise to team 2. -/
def h2hStep (df1 df2 : List HistRow) (w : Nat × Nat) (gid : Nat) : Nat × Nat :=
  match df1.find? (fun r => r.game_id == gid), df2.find? (fun r => r.game_id == gid) with
  | some t1, some t2 =>
    if t1.rank < t2.rank then (w.1 + 1, w.2) else (w.1, w.2 + 1)
  | _, _ => w

/-- The head-to-head win tally `(team1_wins, team2_wins)`. -/
def h2hTally (df1 df2 : List HistRow) : Nat × Nat :=
  (commonGameIds df1 df2).foldl (h2hStep df1 df2) (0, 0)

/-- The `winner` name recorded per game (lines 316-321). -/
def h2hWinner (team1_name team2_name : String) (t1_rank t2_rank : Nat) : String :=
  if t1_rank < t2_rank then team1_name else team2_name

/-! ## Radar normalization (2_Team_Analysis.py lines 246-261) -/

/-- `max_avg_rank = max(team1_metrics['Avg Rank'], team2_metrics['Avg Rank'], 10)`
(Python's max of three arguments). -/
def max_avg_rank (r1 r2 : ℚ) : ℚ := max (max r1 r2) 10

/-- The inverted-rank radar entries of the two teams:
`max_avg_rank - own avg rank` for each. -/
def radarNormalize (r1 r2 : ℚ) : ℚ × ℚ :=
  (max_avg_rank r1 r2 - r1, max_avg_rank r1 r2 - r2)

/-! ## Concrete instances used by counterexamples and witnesses -/

/-- A store with one team that played two games of the same name and
category but at two different venues "A" and "B". -/
def c6db : DB :=
  ⟨[⟨1, 10, "G", "C", "A"⟩, ⟨2, 20, "G", "C", "B"⟩],
   [⟨1, "T"⟩],
   [⟨1, 1, 3, 30⟩, ⟨2, 1, 4, 40⟩]⟩

/-- A full-game-results table with three teams: "zeta" and "alpha" tied
at rank 1 (source order lists "zeta" first, as the SQL `ORDER BY rank`
leaves tie order arbitrary), and "omega" at rank 2 with no round rows
(null round fields from the left join). -/
def c2Table : List ResultRow :=
  [⟨"zeta", 1, 50, some "round 1", some 25⟩,
   ⟨"zeta", 1, 50, some "round 2", some 25⟩,
   ⟨"alpha", 1, 50, some "round 1", some 30⟩,
   ⟨"alpha", 1, 50, some "round 2", some 20⟩,
   ⟨"omega", 2, 0, none, none⟩]

/-- A store with one game in which teams "A" and "B" tie at rank 1 and
"C" takes rank 2. -/
def c8db : DB :=
  ⟨[⟨1, 10, "G", "C", "V"⟩],
   [⟨1, "A"⟩, ⟨2, "B"⟩, ⟨3, "C"⟩],
   [⟨1, 1, 1, 50⟩, ⟨1, 2, 1, 50⟩, ⟨1, 3, 2, 40⟩]⟩

/-! ## Order facts about the comparison relations -/

theorem lexLT_iff (x : List Char) : ∀ y, lexLT x y = true ↔ List.Lex (· < ·) x y := by
  induction x with
  | nil =>
    intro y
    cases y with
    | nil => simp [lexLT]
    | cons b bs => simp [lexLT]; exact List.Lex.nil
  | cons a as ih =>
    intro y
    cases y with
    | nil => simp [lexLT]
    | cons b bs =>
      rcases lt_trichotomy a b with h | h | h
      · simp only [lexLT, if_pos h, true_iff]
        exact List.Lex.rel h
      · subst h
        simp only [lexLT, if_neg (lt_irrefl a)]
        rw [ih bs]
        exact (List.Lex.cons_iff (r := ((· < ·) : Char → Char → Prop))).symm
      · simp only [lexLT, if_neg (not_lt_of_gt h), if_pos h, Bool.false_eq_true, false_iff]
        intro hlex
        cases hlex with
        | cons h₂ => exact lt_irrefl a h
        | rel h₂ => exact lt_asymm h h₂

theorem strLT_iff (a b : String) :
    strLT a b = true ↔ List.Lex (· < ·) a.toList b.toList :=
  lexLT_iff a.toList b.toList

theorem strLT_asymm {a b : String} (h : strLT a b = true) : strLT b a = false := by
  rcases Bool.eq_false_or_eq_true (strLT b a) with h₂ | h₂
  · exact absurd ((strLT_iff a b).mp h)
      (asymm_of (List.Lex ((· < ·) : Char → Char → Prop)) ((strLT_iff b a).mp h₂))
  · exact h₂

theorem strLT_or (a b : String) : strLT a b = true ∨ a = b ∨ strLT b a = true := by
  rcases trichotomous_of (List.Lex ((· < ·) : Char → Char → Prop)) a.toList b.toList with h | h | h
  · exact Or.inl ((strLT_iff a b).mpr h)
  · exact Or.inr (Or.inl (String.toList_inj.mp h))
  · exact Or.inr (Or.inr ((strLT_iff b a).mpr h))

theorem strLT_trans {a b c : String} (h₁ : strLT a b = true) (h₂ : strLT b c = true) :
    strLT a c = true :=
  (strLT_iff a c).mpr
    (trans_of (List.Lex ((· < ·) : Char → Char → Prop)) ((strLT_iff a b).mp h₁) ((strLT_iff b c).mp h₂))

instance : IsTotal HistRow dateDesc := ⟨fun a b => Nat.le_total b.game_date a.game_date⟩

instance : IsTrans HistRow dateDesc := ⟨fun _ _ _ h h₂ => Nat.le_trans h₂ h⟩

instance : IsTotal (String × Nat) countDesc := ⟨fun a b => Nat.le_total b.2 a.2⟩

instance : IsTrans (String × Nat) countDesc := ⟨fun _ _ _ h h₂ => Nat.le_trans h₂ h⟩

instance {α : Type} (key : α → Nat) : IsTotal α (byKey key) :=
  ⟨fun a b => Nat.le_total (key a) (key b)⟩

instance {α : Type} (key : α → Nat) : IsTrans α (byKey key) :=
  ⟨fun _ _ _ h h₂ => Nat.le_trans h h₂⟩

instance : IsTotal (Nat × String × Int) keyLE where
  total a b := by
    rcases Nat.lt_trichotomy a.1 b.1 with h | h | h
    · exact Or.inl (Or.inl h)
    · rcases strLT_or a.2.1 b.2.1 with h₂ | h₂ | h₂
      · exact Or.inl (Or.inr ⟨h, Or.inl h₂⟩)
      · rcases Int.le_total a.2.2 b.2.2 with h₃ | h₃
        · exact Or.inl (Or.inr ⟨h, Or.inr ⟨h₂, h₃⟩⟩)
        · exact Or.inr (Or.inr ⟨h.symm, Or.inr ⟨h₂.symm, h₃⟩⟩)
      · exact Or.inr (Or.inr ⟨h.symm, Or.inl h₂⟩)
    · exact Or.inr (Or.inl h)

instance : IsTrans (Nat × String × Int) keyLE where
  trans a b c hab hbc := by
    rcases hab with h₁ | ⟨h₁, h₂⟩ <;> rcases hbc with g₁ | ⟨g₁, g₂⟩
    · exact Or.inl (h₁.trans g₁)
    · exact Or.inl (g₁ ▸ h₁)
    · exact Or.inl (h₁ ▸ g₁)
    · refine Or.inr ⟨h₁.trans g₁, ?_⟩
      rcases h₂ with h₂ | ⟨h₂, h₃⟩ <;> rcases g₂ with g₂ | ⟨g₂, g₃⟩
      · exact Or.inl (strLT_trans h₂ g₂)
      · exact Or.inl (g₂ ▸ h₂)
      · exact Or.inl (h₂ ▸ g₂)
      · exact Or.inr ⟨h₂.trans g₂, h₃.trans g₃⟩

instance : IsTotal (Nat × String × Int × List (Option ℚ)) rankLE :=
  ⟨fun a b => Nat.le_total a.1 b.1⟩

instance : IsTrans (Nat × String × Int × List (Option ℚ)) rankLE :=
  ⟨fun _ _ _ h h₂ => Nat.le_trans h h₂⟩

/-! ## Claim C3 -/

/-- C3: when query execution fails, `run_query` reports the failure on
the error channel and returns an empty table with exactly the one
execution attempted; and when `get_connection` yielded its failure
signal (`None`), every `run_query` call returns an empty table with no
execution attempted and no new error. -/
theorem claim3_run_query_error_handling :
    (∀ (e : Engine) (read_sql : Engine → Except String DataFrame) (msg : String),
        read_sql e = Except.error msg →
        run_query (some e) read_sql = ⟨DataFrame.empty, ["Query failed: " ++ msg], 1⟩) ∧
    (∀ read_sql : Engine → Except String DataFrame,
        run_query none read_sql = ⟨DataFrame.empty, [], 0⟩) := by
  constructor
  · intro e read_sql msg h
    simp [run_query, h]
  · intro read_sql
    rfl

/-- Witness for C3 at a concrete failing oracle and at the absent
connection. -/
theorem claim3_witness :
    run_query (some ⟨0⟩) (fun _ => Except.error "boom") =
      ⟨DataFrame.empty, ["Query failed: " ++ "boom"], 1⟩ ∧
    run_query none (fun _ => Except.error "boom") = ⟨DataFrame.empty, [], 0⟩ :=
  ⟨claim3_run_query_error_handling.1 ⟨0⟩ (fun _ => Except.error "boom") "boom" rfl,
   claim3_run_query_error_handling.2 (fun _ => Except.error "boom")⟩

/-! ## Claim C7 -/

/-- C7: the radar normalization maps each team's average rank to
`max(team1 avg rank, team2 avg rank, 10) - own avg rank`, and whenever
both averages are at most 10 the floor applies, giving `10 - rank`. -/
theorem claim7_radar_floor (r1 r2 : ℚ) (h1 : r1 ≤ 10) (h2 : r2 ≤ 10) :
    radarNormalize r1 r2 = (10 - r1, 10 - r2) := by
  unfold radarNormalize max_avg_rank
  rw [max_eq_right (max_le h1 h2)]

/-- Witness for C7: average ranks 3.0 and 7.0 normalize to 7.0 and 3.0. -/
theorem claim7_witness : radarNormalize 3 7 = (7, 3) := by
  rw [claim7_radar_floor 3 7 (by norm_num) (by norm_num)]
  norm_num

/-! ## Claim C10 -/

/-- C10: in the head-to-head tally, a game in which the two teams have
equal rank is credited to the comparison (second-selected) team: the
recorded winner name is the second team's and the tally increments the
second team's count, never the first's and never a tie. -/
theorem claim10_tie_credited_to_second :
    (∀ (team1_name team2_name : String) (r : Nat),
        h2hWinner team1_name team2_name r r = team2_name) ∧
    (∀ (df1 df2 : List HistRow) (w : Nat × Nat) (gid : Nat) (t1 t2 : HistRow),
        df1.find? (fun x => x.game_id == gid) = some t1 →
        df2.find? (fun x => x.game_id == gid) = some t2 →
        t1.rank = t2.rank →
        h2hStep df1 df2 w gid = (w.1, w.2 + 1)) := by
  constructor
  · intro n1 n2 r
    simp [h2hWinner]
  · intro df1 df2 w gid t1 t2 h1 h2 hrank
    unfold h2hStep
    rw [h1, h2]
    simp [hrank]

/-- Witness for C10 at a concrete pair of one-game histories with equal
ranks. -/
theorem claim10_witness :
    h2hWinner "A" "B" 2 2 = "B" ∧
    h2hStep [⟨1, 5, "g", 2, 10, "v"⟩] [⟨1, 5, "g", 2, 8, "v"⟩] (0, 0) 1 = (0, 1) :=
  ⟨claim10_tie_credited_to_second.1 "A" "B" 2,
   claim10_tie_credited_to_second.2 [⟨1, 5, "g", 2, 10, "v"⟩] [⟨1, 5, "g", 2, 8, "v"⟩]
     (0, 0) 1 ⟨1, 5, "g", 2, 10, "v"⟩ ⟨1, 5, "g", 2, 8, "v"⟩ rfl rfl rfl⟩

/-! ## Claim C5 -/

/-- C5 counterexample: the claim says every round name containing no
digits sorts after all numbered rounds, but the sentinel is 999:
"Bonus" (no digits) sorts before the numbered round "Round 1000". -/
theorem claim5_counterexample :
    hasDigit "Round 1000" = true ∧ hasDigit "Bonus" = false ∧
    sortRounds ["Round 1000", "Bonus"] = ["Bonus", "Round 1000"] := by
  decide

/-- C5 (amended): the natural round sort orders names by the integer
formed from their digit characters, names with no digits taking the
sentinel key 999; the sort is stable, so encounter order is preserved
among non-numeric names; a name with no digits sorts after every round
whose digit value is below 999 (but not necessarily after rounds whose
digit value reaches the sentinel); and the example input sorts as the
spec expects. -/
theorem claim5_natural_sort_amended :
    (∀ l : List String, (sortRounds l).Sorted (byKey roundKey)) ∧
    (∀ s : String, hasDigit s = false → roundKey s = 999) ∧
    (∀ l : List String,
        (sortRounds l).filter (fun s => !hasDigit s) = l.filter (fun s => !hasDigit s)) ∧
    (∀ (l : List String) (i j : Nat) (hi : i < (sortRounds l).length)
        (hj : j < (sortRounds l).length),
        hasDigit ((sortRounds l).get ⟨i, hi⟩) = false →
        roundKey ((sortRounds l).get ⟨j, hj⟩) < 999 → j < i) ∧
    sortRounds ["Round 10", "Round 2", "Bonus"] = ["Round 2", "Round 10", "Bonus"] := by
  refine ⟨fun l => List.sorted_insertionSort (byKey roundKey) l, ?_, ?_, ?_, by decide⟩
  · intro s h
    simp [roundKey, h]
  · intro l
    have hkey : ∀ s ∈ l.filter (fun s => !hasDigit s), roundKey s = 999 := by
      intro s hs
      have := (List.mem_filter.mp hs).2
      simp only [Bool.not_eq_true'] at this
      simp [roundKey, this]
    have hpair : (l.filter (fun s => !hasDigit s)).Pairwise (byKey roundKey) := by
      refine List.pairwise_of_forall_mem_list ?_
      intro a ha b hb
      unfold byKey
      rw [hkey a ha, hkey b hb]
    have hsub : List.Sublist (l.filter (fun s => !hasDigit s))
        (List.insertionSort (byKey roundKey) l) :=
      List.sublist_insertionSort hpair (List.filter_sublist l)
    have hsub₂ : List.Sublist ((l.filter (fun s => !hasDigit s)).filter (fun s => !hasDigit s))
        ((List.insertionSort (byKey roundKey) l).filter (fun s => !hasDigit s)) :=
      hsub.filter (fun s => !hasDigit s)
    rw [List.filter_filter] at hsub₂
    have hperm : List.Perm ((List.insertionSort (byKey roundKey) l).filter (fun s => !hasDigit s))
        (l.filter (fun s => !hasDigit s)) :=
      (List.perm_insertionSort (byKey roundKey) l).filter (fun s => !hasDigit s)
    have hlen : ((l.filter fun s => !hasDigit s && !hasDigit s)).length =
        ((List.insertionSort (byKey roundKey) l).filter (fun s => !hasDigit s)).length := by
      rw [hperm.length_eq]
      congr 1
      apply List.filter_congr
      intro s _
      cases hasDigit s <;> rfl
    have := hsub₂.eq_of_length hlen
    calc (sortRounds l).filter (fun s => !hasDigit s)
        = (l.filter fun s => !hasDigit s && !hasDigit s) := (this).symm
      _ = l.filter (fun s => !hasDigit s) := by
          apply List.filter_congr
          intro s _
          cases hasDigit s <;> rfl
  · intro l i j hi hj hnd hlt
    have hkey : ∀ s : String, hasDigit s = false → roundKey s = 999 := fun s h => by
      simp [roundKey, h]
    have hsorted : (sortRounds l).Sorted (byKey roundKey) :=
      List.sorted_insertionSort (byKey roundKey) l
    rcases Nat.lt_trichotomy j i with h | h | h
    · exact h
    · exfalso
      subst h
      have heq : (sortRounds l).get ⟨j, hj⟩ = (sortRounds l).get ⟨j, hi⟩ := rfl
      have h999 := hkey _ hnd
      rw [heq, h999] at hlt
      omega
    · exfalso
      have hp : byKey roundKey ((sortRounds l).get ⟨i, hi⟩) ((sortRounds l).get ⟨j, hj⟩) :=
        (List.pairwise_iff_get.mp hsorted) ⟨i, hi⟩ ⟨j, hj⟩ h
      have hp2 : roundKey ((sortRounds l).get ⟨i, hi⟩) ≤
          roundKey ((sortRounds l).get ⟨j, hj⟩) := hp
      have h999 := hkey _ hnd
      omega

/-! ## Claim C1 -/

/-- C1: for every combination of the optional filter sets, each
query-building function contributes exactly one `column IN (values)`
predicate per non-empty filter set and none for an empty one (counted
here by `List.count` of the exact predicate string), the filter list
holds nothing else beyond the function's fixed base predicates (the
length equations), the `WHERE` clause is the `" AND "`-conjunction of
that list and is absent exactly when no filter is active, and the
filter semantics with all sets empty matches every row (match all,
never match none). -/
theorem claim1_predicate_composition :
    (∀ g : Game, matchesFilters g [] [] [] = true) ∧
    ∀ game_names categories venues : List String,
      ((get_games_list_filters game_names categories venues).count
          "game_name IN :game_names" = (if game_names = [] then 0 else 1) ∧
        (get_games_list_filters game_names categories venues).count
          "category IN :categories" = (if categories = [] then 0 else 1) ∧
        (get_games_list_filters game_names categories venues).count
          "venue IN :venues" = (if venues = [] then 0 else 1) ∧
        (get_games_list_filters game_names categories venues).length =
          (if game_names = [] then 0 else 1) + (if categories = [] then 0 else 1) +
            (if venues = [] then 0 else 1) ∧
        (whereIfAny (get_games_list_filters game_names categories venues) = "" ↔
          game_names = [] ∧ categories = [] ∧ venues = []) ∧
        (get_games_list_filters game_names categories venues ≠ [] →
          whereIfAny (get_games_list_filters game_names categories venues) =
            "WHERE " ++ String.intercalate " AND "
              (get_games_list_filters game_names categories venues))) ∧
      (get_summary_stats_filters game_names categories venues =
        get_games_list_filters game_names categories venues) ∧
      ((get_overall_top_teams_filters game_names categories venues).count
          "g.game_name IN :game_names" = (if game_names = [] then 0 else 1) ∧
        (get_overall_top_teams_filters game_names categories venues).count
          "g.category IN :categories" = (if categories = [] then 0 else 1) ∧
        (get_overall_top_teams_filters game_names categories venues).count
          "g.venue IN :venues" = (if venues = [] then 0 else 1) ∧
        (get_overall_top_teams_filters game_names categories venues).length =
          (if game_names = [] then 0 else 1) + (if categories = [] then 0 else 1) +
            (if venues = [] then 0 else 1) ∧
        (whereIfAny (get_overall_top_teams_filters game_names categories venues) = "" ↔
          game_names = [] ∧ categories = [] ∧ venues = [])) ∧
      (get_avg_round_scores_by_team_filters game_names categories venues =
        get_overall_top_teams_filters game_names categories venues) ∧
      ((get_top_n_finishes_filters game_names categories venues).count
          "tgp.rank <= :top_n" = 1 ∧
        (get_top_n_finishes_filters game_names categories venues).count
          "g.game_name IN :game_names" = (if game_names = [] then 0 else 1) ∧
        (get_top_n_finishes_filters game_names categories venues).count
          "g.category IN :categories" = (if categories = [] then 0 else 1) ∧
        (get_top_n_finishes_filters game_names categories venues).count
          "g.venue IN :venues" = (if venues = [] then 0 else 1) ∧
        (get_top_n_finishes_filters game_names categories venues).length =
          1 + ((if game_names = [] then 0 else 1) + (if categories = [] then 0 else 1) +
            (if venues = [] then 0 else 1)) ∧
        whereAlways (get_top_n_finishes_filters game_names categories venues) =
          "WHERE " ++ String.intercalate " AND "
            (get_top_n_finishes_filters game_names categories venues)) ∧
      ((get_team_game_history_filters game_names categories venues).count
          "tgp.team_id = :team_id" = 1 ∧
        (get_team_game_history_filters game_names categories venues).count
          "g.game_name IN :game_names" = (if game_names = [] then 0 else 1) ∧
        (get_team_game_history_filters game_names categories venues).count
          "g.category IN :categories" = (if categories = [] then 0 else 1) ∧
        (get_team_game_history_filters game_names categories venues).count
          "g.venue IN :venues" = (if venues = [] then 0 else 1) ∧
        (get_team_game_history_filters game_names categories venues).length =
          1 + ((if game_names = [] then 0 else 1) + (if categories = [] then 0 else 1) +
            (if venues = [] then 0 else 1))) := by
  refine ⟨fun g => by simp [matchesFilters], ?_⟩
  intro game_names categories venues
  rcases game_names with _ | ⟨a, as⟩ <;> rcases categories with _ | ⟨b, bs⟩ <;>
    rcases venues with _ | ⟨c, cs⟩ <;>
    simp [get_games_list_filters, get_summary_stats_filters, get_overall_top_teams_filters,
      get_top_n_finishes_filters, get_avg_round_scores_by_team_filters,
      get_team_game_history_filters, optFilters, whereIfAny, whereAlways,
      List.count_cons, List.count_nil, String.intercalate] <;>
    decide

/-- Witness for C1: the plain-hypothesis conjunct (`filters ≠ [] →` the
clause is the AND-conjunction) applied at one non-empty filter set. -/
theorem claim1_witness :
    whereIfAny (get_games_list_filters ["quiz"] [] []) =
      "WHERE " ++ String.intercalate " AND " (get_games_list_filters ["quiz"] [] []) :=
  ((claim1_predicate_composition.2 ["quiz"] [] []).1.2.2.2.2.2) (by decide)

/-! ## Claim C4 -/

theorem mem_commonGameIds (df1 df2 : List HistRow) (gid : Nat) :
    gid ∈ commonGameIds df1 df2 ↔
      gid ∈ df1.map (fun r => r.game_id) ∧ gid ∈ df2.map (fun r => r.game_id) := by
  simp [commonGameIds, List.mem_filter, List.mem_dedup, List.contains_iff_exists_mem_beq,
    List.mem_map, eq_comm]

theorem find?_isSome_of_mem_commonGameIds {df1 df2 : List HistRow} {gid : Nat}
    (h : gid ∈ commonGameIds df1 df2) :
    (df1.find? (fun r => r.game_id == gid)).isSome ∧
      (df2.find? (fun r => r.game_id == gid)).isSome := by
  obtain ⟨h1, h2⟩ := (mem_commonGameIds df1 df2 gid).mp h
  constructor
  · obtain ⟨r, hr, hid⟩ := List.mem_map.mp h1
    exact List.find?_isSome.mpr ⟨r, hr, by simpa using hid⟩
  · obtain ⟨r, hr, hid⟩ := List.mem_map.mp h2
    exact List.find?_isSome.mpr ⟨r, hr, by simpa using hid⟩

theorem h2h_foldl_eq (df1 df2 : List HistRow) :
    ∀ (ids : List Nat) (w : Nat × Nat),
      (∀ gid ∈ ids, (df1.find? (fun r => r.game_id == gid)).isSome ∧
        (df2.find? (fun r => r.game_id == gid)).isSome) →
      ids.foldl (h2hStep df1 df2) w =
        (w.1 + (ids.filter (fun gid =>
            match df1.find? (fun r => r.game_id == gid),
                df2.find? (fun r => r.game_id == gid) with
            | some t1, some t2 => decide (t1.rank < t2.rank)
            | _, _ => false)).length,
         w.2 + (ids.filter (fun gid =>
            !(match df1.find? (fun r => r.game_id == gid),
                df2.find? (fun r => r.game_id == gid) with
            | some t1, some t2 => decide (t1.rank < t2.rank)
            | _, _ => false))).length) := by
  intro ids
  induction ids with
  | nil =>
    intro w _
    simp
  | cons gid ids ih =>
    intro w h
    obtain ⟨h1s, h2s⟩ := h gid (List.mem_cons_self gid ids)
    obtain ⟨t1, ht1⟩ := Option.isSome_iff_exists.mp h1s
    obtain ⟨t2, ht2⟩ := Option.isSome_iff_exists.mp h2s
    have hrest : ∀ g ∈ ids, (df1.find? (fun r => r.game_id == g)).isSome ∧
        (df2.find? (fun r => r.game_id == g)).isSome :=
      fun g hg => h g (List.mem_cons_of_mem _ hg)
    rw [List.foldl_cons, ih _ hrest]
    by_cases hlt : t1.rank < t2.rank
    · have hP : (match df1.find? (fun r => r.game_id == gid),
            df2.find? (fun r => r.game_id == gid) with
          | some t1, some t2 => decide (t1.rank < t2.rank)
          | _, _ => false) = true := by
        rw [ht1, ht2]
        exact decide_eq_true hlt
      have hstep : h2hStep df1 df2 w gid = (w.1 + 1, w.2) := by
        unfold h2hStep
        rw [ht1, ht2]
        simp [hlt]
      rw [hstep, List.filter_cons, List.filter_cons]
      simp only [hP, Bool.not_true, if_pos, if_neg]
      simp [Prod.ext_iff]
      omega
    · have hP : (match df1.find? (fun r => r.game_id == gid),
            df2.find? (fun r => r.game_id == gid) with
          | some t1, some t2 => decide (t1.rank < t2.rank)
          | _, _ => false) = false := by
        rw [ht1, ht2]
        exact decide_eq_false hlt
      have hstep : h2hStep df1 df2 w gid = (w.1, w.2 + 1) := by
        unfold h2hStep
        rw [ht1, ht2]
        simp [hlt]
      rw [hstep, List.filter_cons, List.filter_cons]
      simp only [hP, Bool.not_false]
      simp [Prod.ext_iff]
      omega

/-- C4: the head-to-head tally ranges over exactly the intersection of
the two teams' game-id sets; the first team's total counts exactly the
common games in which its (first) row has strictly lower rank than the
second team's, the second team's total counts the rest; and the two
totals always sum to the number of common games. -/
theorem claim4_head_to_head (df1 df2 : List HistRow) :
    (∀ gid : Nat, gid ∈ commonGameIds df1 df2 ↔
      gid ∈ df1.map (fun r => r.game_id) ∧ gid ∈ df2.map (fun r => r.game_id)) ∧
    h2hTally df1 df2 =
      (((commonGameIds df1 df2).filter (fun gid =>
          match df1.find? (fun r => r.game_id == gid),
              df2.find? (fun r => r.game_id == gid) with
          | some t1, some t2 => decide (t1.rank < t2.rank)
          | _, _ => false)).length,
       ((commonGameIds df1 df2).filter (fun gid =>
          !(match df1.find? (fun r => r.game_id == gid),
              df2.find? (fun r => r.game_id == gid) with
          | some t1, some t2 => decide (t1.rank < t2.rank)
          | _, _ => false))).length) ∧
    (h2hTally df1 df2).1 + (h2hTally df1 df2).2 = (commonGameIds df1 df2).length := by
  have htally := h2h_foldl_eq df1 df2 (commonGameIds df1 df2) (0, 0)
    (fun gid hg => find?_isSome_of_mem_commonGameIds hg)
  simp only [Nat.zero_add] at htally
  refine ⟨mem_commonGameIds df1 df2, htally, ?_⟩
  rw [show h2hTally df1 df2 = _ from htally]
  have hsplit := List.length_eq_length_filter_add
    (l := commonGameIds df1 df2)
    (fun gid =>
      match df1.find? (fun r => r.game_id == gid),
          df2.find? (fun r => r.game_id == gid) with
      | some t1, some t2 => decide (t1.rank < t2.rank)
      | _, _ => false)
  simpa using hsplit.symm

/-! ## Claim C6 -/

/-- C6 counterexample: the Team Analysis page calls the game-history
query without passing the session venue selection, so with venues
selection `["A"]` the history still contains the venue-"B" game; the
query function itself, given the venue filter, would have dropped it. -/
theorem claim6_counterexample :
    (teamAnalysisHistory c6db 1 ⟨[], [], ["A"]⟩).map (fun r => r.venue) = ["B", "A"] ∧
    ¬ (∀ r ∈ teamAnalysisHistory c6db 1 ⟨[], [], ["A"]⟩, r.venue ∈ (["A"] : List String)) ∧
    (get_team_game_history c6db 1 [] [] ["A"]).map (fun r => r.venue) = ["A"] := by
  refine ⟨by decide, ?_, by decide⟩
  intro hall
  have := hall ⟨2, 20, "G", 4, 40, "B"⟩ (by decide)
  simp at this

/-- C6 (amended): the page's game-history call applies only the
session game-name and category selections — the venue selection is not
passed, so the result is independent of it — and the rows are exactly
the team's participations joined to their games that pass those two
filters, ordered by game date descending. -/
theorem claim6_history_amended (db : DB) (team_id : Nat) (f : Filters) :
    teamAnalysisHistory db team_id f =
      get_team_game_history db team_id f.game_names f.categories [] ∧
    (∀ v : List String,
      teamAnalysisHistory db team_id ⟨f.game_names, f.categories, v⟩ =
        teamAnalysisHistory db team_id f) ∧
    (teamAnalysisHistory db team_id f).Sorted dateDesc ∧
    (∀ row : HistRow,
      row ∈ teamAnalysisHistory db team_id f ↔
        ∃ p ∈ db.parts, ∃ g ∈ db.games, p.game_id = g.id ∧ p.team_id = team_id ∧
          matchesFilters g f.game_names f.categories [] = true ∧ row = mkHistRow p g) := by
  refine ⟨rfl, fun v => rfl, List.sorted_insertionSort dateDesc _, ?_⟩
  intro row
  unfold teamAnalysisHistory get_team_game_history
  rw [List.mem_insertionSort]
  constructor
  · intro hrow
    obtain ⟨pg, hpg, hsome⟩ := List.mem_filterMap.mp hrow
    obtain ⟨p, hp, hmem⟩ := List.mem_flatMap.mp hpg
    obtain ⟨g, hgmem, rfl⟩ := List.mem_map.mp hmem
    have hgfilter := List.mem_filter.mp hgmem
    by_cases hcond :
        (p.team_id == team_id && matchesFilters g f.game_names f.categories []) = true
    · rw [if_pos hcond] at hsome
      obtain ⟨htid, hmat⟩ := Bool.and_eq_true_iff.mp hcond
      exact ⟨p, hp, g, hgfilter.1, by simpa using hgfilter.2, by simpa using htid, hmat,
        (Option.some_inj.mp hsome).symm⟩
    · rw [if_neg hcond] at hsome
      cases hsome
  · rintro ⟨p, hp, g, hg, hid, htid, hmat, rfl⟩
    refine List.mem_filterMap.mpr ⟨(p, g), ?_, ?_⟩
    · exact List.mem_flatMap.mpr
        ⟨p, hp, List.mem_map.mpr ⟨g, List.mem_filter.mpr ⟨hg, by simpa using hid⟩, rfl⟩⟩
    · rw [if_pos]
      rw [Bool.and_eq_true_iff]
      exact ⟨by simpa using htid, hmat⟩

/-! ## Claim C2 -/

theorem dedup_length_map_eq {α β γ : Type} [DecidableEq β] [DecidableEq γ]
    (f : α → β) (g : α → γ) :
    ∀ xs : List α, (∀ a ∈ xs, ∀ b ∈ xs, (f a = f b ↔ g a = g b)) →
      (xs.map f).dedup.length = (xs.map g).dedup.length := by
  intro xs
  induction xs with
  | nil => simp
  | cons a xs ih =>
    intro h
    have hrest : ∀ p ∈ xs, ∀ q ∈ xs, (f p = f q ↔ g p = g q) := fun p hp q hq =>
      h p (List.mem_cons_of_mem _ hp) q (List.mem_cons_of_mem _ hq)
    have hmem : f a ∈ xs.map f ↔ g a ∈ xs.map g := by
      simp only [List.mem_map]
      constructor
      · rintro ⟨b, hb, hfb⟩
        exact ⟨b, hb, (h b (List.mem_cons_of_mem _ hb) a (List.mem_cons_self a xs)).mp hfb⟩
      · rintro ⟨b, hb, hgb⟩
        exact ⟨b, hb, (h b (List.mem_cons_of_mem _ hb) a (List.mem_cons_self a xs)).mpr hgb⟩
    simp only [List.map_cons]
    by_cases hfa : f a ∈ xs.map f
    · rw [List.dedup_cons_of_mem hfa, List.dedup_cons_of_mem (hmem.mp hfa)]
      exact ih hrest
    · rw [List.dedup_cons_of_not_mem hfa,
        List.dedup_cons_of_not_mem (fun hg => hfa (hmem.mpr hg))]
      simp [ih hrest]

/-- C2 counterexample: on `c2Table` (3 teams, one of them with no round
rows) the pivot keeps only 2 rows — the round-less team is dropped by
`pivot_table`, not kept with blank cells — and the two rank-1 teams come
out in grouping-key order ("alpha" before "zeta"), not source order. -/
theorem claim2_counterexample :
    (c2Table.map (fun r => r.name)).dedup.length = 3 ∧
    (pivot_df c2Table).2.length = 2 ∧
    c2Table.map (fun r => r.name) = ["zeta", "zeta", "alpha", "alpha", "omega"] ∧
    (pivot_df c2Table).2.map (fun r => r.2.1) = ["alpha", "zeta"] := by
  refine ⟨by decide, by decide, by decide, by decide⟩

/-- C2 (amended): for a full-game-results table whose round-bearing rows
give each team a single grouping key, the pivot produces one row per
team that has at least one round row (teams with no round rows are
dropped), one column per distinct round name beyond the three key
columns, rows ordered by ascending rank with equal ranks ordered by the
lexicographic grouping key (rank, team, total) rather than source
order, and a (team, round) pair with no score rows yields an absent
(blank) cell, not zero. -/
theorem claim2_pivot_amended (l : List ResultRow)
    (hcoh : ∀ r₁ ∈ pivotValid l, ∀ r₂ ∈ pivotValid l, r₁.name = r₂.name → rowKey r₁ = rowKey r₂) :
    (pivot_df l).2.length = ((pivotValid l).map (fun r => r.name)).dedup.length ∧
    (pivot_df l).1.length = ((pivotValid l).filterMap (fun r => r.round_name)).dedup.length ∧
    (∀ row ∈ (pivot_df l).2, row.2.2.2.length = (pivot_df l).1.length) ∧
    ((pivot_df l).2.map (fun r => r.1)).Sorted (· ≤ ·) ∧
    ((pivot_df l).2.map (fun r => (r.1, r.2.1, r.2.2.1))).Sorted keyLE ∧
    (∀ (k : Nat × String × Int) (c : String),
      (∀ r ∈ pivotValid l, rowKey r = k → r.round_name ≠ some c) →
      pivotCell l k c = none) := by
  have hkeylen : (pivot_df l).2.length = (pivotKeys l).length := by
    simp [pivot_df, List.length_insertionSort]
  have hkeys_sorted : (pivotKeys l).Sorted keyLE :=
    List.sorted_insertionSort keyLE _
  have hpre_sorted : ((pivotKeys l).map
      (fun k => (k.1, k.2.1, k.2.2, (pivotCols l).map (pivotCell l k)))).Sorted rankLE := by
    refine List.Pairwise.map _ ?_ hkeys_sorted
    intro a b hab
    rcases hab with h | ⟨h, _⟩
    · exact Nat.le_of_lt h
    · exact Nat.le_of_eq h
  have hrows_eq : (pivot_df l).2 = (pivotKeys l).map
      (fun k => (k.1, k.2.1, k.2.2, (pivotCols l).map (pivotCell l k))) := by
    simp only [pivot_df]
    exact List.Sorted.insertionSort_eq hpre_sorted
  refine ⟨?_, ?_, ?_, ?_, ?_, ?_⟩
  · rw [hkeylen]
    have : (pivotKeys l).length = ((pivotValid l).map rowKey).dedup.length := by
      simp [pivotKeys, List.length_insertionSort]
    rw [this]
    refine dedup_length_map_eq rowKey (fun r => r.name) (pivotValid l) ?_
    intro a ha b hb
    constructor
    · intro hk
      have : (rowKey a).2.1 = (rowKey b).2.1 := by rw [hk]
      simpa [rowKey] using this
    · intro hn
      exact hcoh a ha b hb hn
  · simp [pivot_df, pivotCols, List.length_insertionSort]
  · intro row hrow
    rw [hrows_eq] at hrow
    obtain ⟨k, _, rfl⟩ := List.mem_map.mp hrow
    simp [pivot_df, pivotCols, List.length_insertionSort]
  · have hs : ((pivot_df l).2).Sorted rankLE := by
      simp only [pivot_df]
      exact List.sorted_insertionSort rankLE _
    exact List.Pairwise.map _ (fun a b hab => hab) hs
  · rw [hrows_eq, List.map_map]
    have hproj : ((fun r : Nat × String × Int × List (Option ℚ) => (r.1, r.2.1, r.2.2.1)) ∘
        (fun k : Nat × String × Int =>
          (k.1, k.2.1, k.2.2, (pivotCols l).map (pivotCell l k)))) = id := by
      funext k
      simp
    rw [hproj, List.map_id]
    exact hkeys_sorted
  · intro k c hvac
    unfold pivotCell
    have hnil : ((pivotValid l).filter
        (fun r => rowKey r == k && r.round_name == some c)) = [] := by
      rw [List.filter_eq_nil_iff]
      intro r hr habs
      obtain ⟨h1, h2⟩ := Bool.and_eq_true_iff.mp habs
      exact hvac r hr (by simpa using h1) (by simpa using h2)
    rw [hnil]
    simp [listMean]

/-- Witness for C2 (amended) on the concrete table: the coherent table
yields one row per round-bearing team and a blank cell for the
round-less team's key. -/
theorem claim2_witness :
    (pivot_df c2Table).2.length = 2 ∧ pivotCell c2Table (2, "omega", 0) "round 1" = none :=
  ⟨((claim2_pivot_amended c2Table (by decide)).1).trans (by decide),
   (claim2_pivot_amended c2Table (by decide)).2.2.2.2.2 (2, "omega", 0) "round 1" (by decide)⟩

/-! ## Claim C8 -/

theorem sum_count_dedup {α : Type} [DecidableEq α] (l : List α) :
    (l.dedup.map fun x => l.count x).sum = l.length := by
  have h := Multiset.toFinset_sum_count_eq (l : Multiset α)
  simpa [Multiset.toFinset, Finset.sum] using h

theorem topN_names_length (db : DB) (gn cat ven : List String) :
    ∀ ps : List Participation,
      (∀ p ∈ ps, 1 ≤ p.rank) →
      (∀ p ∈ ps, (db.teams.filter fun t => t.id == p.team_id).length = 1) →
      (∀ p ∈ ps, (db.games.filter fun g => p.game_id == g.id).length = 1) →
      (ps.flatMap fun p =>
        if p.rank ≤ 1 then
          (db.teams.filter fun t => t.id == p.team_id).flatMap fun t =>
            (db.games.filter fun g =>
              p.game_id == g.id && matchesFilters g gn cat ven).map fun _ => t.name
        else []).length =
      (ps.filter fun p => p.rank == 1 &&
        (db.games.filter fun g => p.game_id == g.id).any
          (fun g => matchesFilters g gn cat ven)).length := by
  intro ps
  induction ps with
  | nil =>
    intro _ _ _
    simp
  | cons p ps ih =>
    intro hrank hteam hgame
    have hr := hrank p (List.mem_cons_self p ps)
    obtain ⟨t0, ht0⟩ := List.length_eq_one.mp (hteam p (List.mem_cons_self p ps))
    obtain ⟨g0, hg0⟩ := List.length_eq_one.mp (hgame p (List.mem_cons_self p ps))
    have ihv := ih (fun q hq => hrank q (List.mem_cons_of_mem _ hq))
      (fun q hq => hteam q (List.mem_cons_of_mem _ hq))
      (fun q hq => hgame q (List.mem_cons_of_mem _ hq))
    have hsplit : (db.games.filter fun g => p.game_id == g.id && matchesFilters g gn cat ven)
        = ((db.games.filter fun g => p.game_id == g.id).filter fun g =>
            matchesFilters g gn cat ven) := by
      rw [List.filter_filter]
      apply List.filter_congr
      intro g _
      exact Bool.and_comm _ _
    rw [List.flatMap_cons, List.filter_cons, List.length_append, ihv]
    by_cases h1 : p.rank ≤ 1
    · have heq : (p.rank == 1) = true := by
        have : p.rank = 1 := Nat.le_antisymm h1 hr
        simp [this]
      by_cases hm : matchesFilters g0 gn cat ven = true
      · simp [if_pos h1, ht0, hsplit, hg0, heq, hm]
        omega
      · simp only [Bool.not_eq_true] at hm
        simp [if_pos h1, ht0, hsplit, hg0, heq, hm]
    · have heq : (p.rank == 1) = false := by
        simp
        omega
      simp [if_neg h1, heq]

/-- C8: for `top_n = 1` (and ranks starting at 1, with team and game
ids resolving to exactly one row each), the sum of all `finish_count`
values returned by the top-N finish query equals the number of
participations with rank 1 whose game passes the filters — tied rank-1
participations each counted once. -/
theorem claim8_top1_finish_sum (db : DB) (gn cat ven : List String)
    (hrank : ∀ p ∈ db.parts, 1 ≤ p.rank)
    (hteam : ∀ p ∈ db.parts, (db.teams.filter fun t => t.id == p.team_id).length = 1)
    (hgame : ∀ p ∈ db.parts, (db.games.filter fun g => p.game_id == g.id).length = 1) :
    ((get_top_n_finishes db 1 gn cat ven).map fun r => r.2).sum =
      (db.parts.filter fun p => p.rank == 1 &&
        (db.games.filter fun g => p.game_id == g.id).any
          (fun g => matchesFilters g gn cat ven)).length := by
  have hperm : List.Perm (get_top_n_finishes db 1 gn cat ven)
      ((topNJoinNames db 1 gn cat ven).dedup.map fun n =>
        (n, (topNJoinNames db 1 gn cat ven).count n)) :=
    List.perm_insertionSort countDesc _
  rw [(hperm.map fun r : String × Nat => r.2).sum_eq, List.map_map]
  have hcomp : ((fun r : String × Nat => r.2) ∘ fun n =>
      (n, (topNJoinNames db 1 gn cat ven).count n)) =
      fun n => (topNJoinNames db 1 gn cat ven).count n := rfl
  rw [hcomp, sum_count_dedup]
  exact topN_names_length db gn cat ven db.parts hrank hteam hgame

/-- Witness for C8 on the concrete store `c8db`: two teams tie at rank
1 in the one game, and the finish counts sum to 2. -/
theorem claim8_witness :
    ((get_top_n_finishes c8db 1 [] [] []).map fun r => r.2).sum = 2 ∧
    (c8db.parts.filter fun p => p.rank == 1 &&
      (c8db.games.filter fun g => p.game_id == g.id).any
        (fun g => matchesFilters g [] [] [])).length = 2 :=
  ⟨(claim8_top1_finish_sum c8db [] [] [] (by decide) (by decide) (by decide)).trans (by decide),
   by decide⟩

/-! ## Claim C9 -/

/-- C9: the generated SQL text of every query function depends only on
which optional arguments are non-empty, never on the contents of the
filter values or of the limit — two calls whose arguments agree on
emptiness produce identical SQL strings; filter values and the limit
travel in the `params` dict as bound values, the limit coerced to an
integer, and without a limit the top-teams `params` carries exactly the
same filter bindings as the other functions. -/
theorem claim9_sql_text_independence :
    (∀ gn cat ven gn2 cat2 ven2 : List String,
      (gn = [] ↔ gn2 = []) → (cat = [] ↔ cat2 = []) → (ven = [] ↔ ven2 = []) →
      ∀ {α β : Type} (limit : Option α) (limit2 : Option β),
        limit.isSome = limit2.isSome →
        (get_games_list_query gn cat ven = get_games_list_query gn2 cat2 ven2 ∧
          get_summary_stats_query gn cat ven = get_summary_stats_query gn2 cat2 ven2 ∧
          get_overall_top_teams_query limit gn cat ven =
            get_overall_top_teams_query limit2 gn2 cat2 ven2 ∧
          get_top_n_finishes_query gn cat ven = get_top_n_finishes_query gn2 cat2 ven2 ∧
          get_avg_round_scores_by_team_query gn cat ven =
            get_avg_round_scores_by_team_query gn2 cat2 ven2 ∧
          get_team_game_history_query gn cat ven =
            get_team_game_history_query gn2 cat2 ven2)) ∧
    (∀ (q : ℚ) (gn cat ven : List String),
      ("limit_val", BindValue.int (pyInt q)) ∈
        get_overall_top_teams_params (some q) gn cat ven) ∧
    (∀ gn cat ven : List String,
      get_overall_top_teams_params none gn cat ven = get_summary_stats_params gn cat ven) := by
  refine ⟨?_, ?_, ?_⟩
  · intro gn cat ven gn2 cat2 ven2 h1 h2 h3 α β limit limit2 hlim
    have hopt : ∀ pre : String, optFilters pre gn cat ven = optFilters pre gn2 cat2 ven2 := by
      intro pre
      simp only [optFilters, ne_eq, h1, h2, h3]
    have hlimc : limitClause limit = limitClause limit2 := by
      cases limit <;> cases limit2 <;> simp [limitClause] at hlim ⊢
    refine ⟨?_, ?_, ?_, ?_, ?_, ?_⟩ <;>
      simp [get_games_list_query, get_summary_stats_query, get_overall_top_teams_query,
        get_top_n_finishes_query, get_avg_round_scores_by_team_query,
        get_team_game_history_query, get_games_list_filters, get_summary_stats_filters,
        get_overall_top_teams_filters, get_top_n_finishes_filters,
        get_avg_round_scores_by_team_filters, get_team_game_history_filters, hopt, hlimc]
  · intro q gn cat ven
    simp [get_overall_top_teams_params]
  · intro gn cat ven
    simp [get_overall_top_teams_params, get_summary_stats_params]

/-- Witness for C9: two calls differing in filter contents, limit value
and even the limit's numeric type produce the same SQL text, and a
rational limit is bound truncated to an integer. -/
theorem claim9_witness :
    get_overall_top_teams_query (some (3 : ℚ)) ["x"] [] ["v"] =
      get_overall_top_teams_query (some (7 : Nat)) ["y"] [] ["w"] ∧
    ("limit_val", BindValue.int (pyInt 3)) ∈
      get_overall_top_teams_params (some 3) ["x"] [] ["v"] :=
  ⟨(claim9_sql_text_independence.1 ["x"] [] ["v"] ["y"] [] ["w"] (by simp) (by simp) (by simp)
      (some (3 : ℚ)) (some (7 : Nat)) rfl).2.2.1,
   claim9_sql_text_independence.2.1 3 ["x"] [] ["v"]⟩

/-- Witness for C5 (amended): on a concrete input the no-digit name
"Bonus" sits after the numbered "Round 2". -/
theorem claim5_witness :
    sortRounds ["Round 10", "Round 2", "Bonus"] = ["Round 2", "Round 10", "Bonus"] ∧
    roundKey "Bonus" = 999 ∧ 0 < 1 :=
  ⟨claim5_natural_sort_amended.2.2.2.2,
   claim5_natural_sort_amended.2.1 "Bonus" rfl,
   claim5_natural_sort_amended.2.2.2.1 ["Round 2", "Bonus"] 1 0 (by decide) (by decide)
     (by decide) (by decide)⟩

end QuizPlease
